import Mathlib

/-!
Verification of the telemetry utility module of thingy-api-blue.

The module under study ingests MQTT telemetry, encodes it into InfluxDB
points, builds Flux queries, aggregates push-style query row streams into
promises, correlates an awaited button press with inbound bus traffic under
a deadline, and normalizes scalar measurements into ratings.  Every
definition below is a shallow embedding of the corresponding JavaScript
function in src/utils/utils.js, keeping its name where Lean allows it.
-/

namespace ThingyApi

/-! ### Point encoder (addFloatProperty / addIntegerProperty) -/

/-- A field value of an InfluxDB point: the encoder either calls
floatField or intField on the raw message data. -/
inductive FieldValue where
  | floatVal (raw : String)
  | intVal (raw : String)
deriving DecidableEq

/-- An InfluxDB point as assembled by the encoder chain
Point(measurement).tag(...).xField(...).timestamp(...). -/
structure Point where
  measurement : String
  tags : List (String × String)
  fields : List (String × FieldValue)
  timestamp : Int
deriving DecidableEq

/-- A decoded MQTT message as consumed by the point encoder.  The data
field is the raw scalar payload; ts is the timestamp the message may or
may not carry. -/
structure MqttMessage where
  appId : String
  data : String
  ts : Option Int
deriving DecidableEq

/-- Embedding of addFloatProperty.  The JavaScript builds one point tagged
with the device, a float field named by appId holding the message data,
stamped with the clock reading new Date().getTime(); that ambient clock
reading is the explicit parameter now.  The returned list is the sequence
of points handed to writePoint. -/
def addFloatProperty (deviceId : String) (message : MqttMessage) (now : Int) :
    List Point :=
  [{ measurement := "thingy91",
     tags := [("device", deviceId)],
     fields := [(message.appId, FieldValue.floatVal message.data)],
     timestamp := now }]

/-- Embedding of addIntegerProperty.  The JavaScript writes a point only
when message.data == the string 1 (loose equality, which on string data
coincides with string equality); otherwise it is a no-op. -/
def addIntegerProperty (deviceId : String) (message : MqttMessage) (now : Int) :
    List Point :=
  if message.data == "1" then
    [{ measurement := "thingy91",
       tags := [("device", deviceId)],
       fields := [(message.appId, FieldValue.intVal message.data)],
       timestamp := now }]
  else []

/-! ### Query builders (constructBasicPropertyQuery /
constructStatisticalQueryOnProperty) -/

/-- Embedding of constructBasicPropertyQuery: the exact template literal
of the source, with the five interpolated arguments. -/
def constructBasicPropertyQuery (bucket interval measurement deviceId field :
    String) : String :=
  "from(bucket: \"" ++ bucket ++ "\")\n  |> range(start: -" ++ interval ++
    ")\n  |> filter(fn: (r) => r._measurement == \"" ++ measurement ++
    "\" and r._field == \"" ++ field ++ "\" and r.device == \"" ++ deviceId ++
    "\")"

/-- Embedding of constructStatisticalQueryOnProperty: the exact template
literal of the source (the source duplicates the basic template and
appends the group and reduction stages). -/
def constructStatisticalQueryOnProperty
    (bucket interval measurement deviceId field statistic : String) : String :=
  "from(bucket: \"" ++ bucket ++ "\")\n  |> range(start: -" ++ interval ++
    ")\n  |> filter(fn: (r) => r._measurement == \"" ++ measurement ++
    "\" and r._field == \"" ++ field ++ "\" and r.device == \"" ++ deviceId ++
    "\")\n  |> group(columns: [\"_field\"])\n  |> " ++ statistic ++ "()"

/-- JavaScript template-literal rendering of an optional argument: calling
the builder without a deviceId interpolates the value undefined, which a
template literal renders as the text undefined. -/
def renderOptionalJsArg : Option String → String
  | none => "undefined"
  | some s => s

/-! ### Row stream aggregator (getQueryRows) -/

/-- One event of the push-style queryRows stream: a row delivery, an
error callback firing, or the completion callback firing. -/
inductive QueryStreamEvent (α : Type) where
  | next (row : α)
  | errorEvent (message : String)
  | complete
deriving DecidableEq

/-- How the promise built by getQueryRows can settle. -/
inductive QuerySettlement (α : Type) where
  | resolvedRows (rows : List α)
  | rejectedWith (message : String)
deriving DecidableEq

/-- Processing loop of the getQueryRows executor: rows are accumulated in
order; the first error callback rejects, the first complete callback
resolves with the accumulated rows; a promise settles only once, so the
first terminal event decides.  A stream with no terminal event leaves the
promise pending (none). -/
def getQueryRowsRun {α : Type} :
    List (QueryStreamEvent α) → List α → Option (QuerySettlement α)
  | [], _ => none
  | QueryStreamEvent.next r :: es, acc => getQueryRowsRun es (acc ++ [r])
  | QueryStreamEvent.errorEvent e :: _, _ =>
      some (QuerySettlement.rejectedWith
        ("An error occurred while fetching data: " ++ e))
  | QueryStreamEvent.complete :: _, acc =>
      some (QuerySettlement.resolvedRows acc)

/-- Embedding of getQueryRows: run the executor against the full event
stream starting from an empty accumulator. -/
def getQueryRows {α : Type} (events : List (QueryStreamEvent α)) :
    Option (QuerySettlement α) :=
  getQueryRowsRun events []

/-! ### Event correlator (waitClickButton)

The promise executor of waitClickButton attaches a message handler,
starts a 60 second timer whose firing removes the handler and rejects,
and arms once(mqttClient, message) whose continuation clears the timer
when the first message event of any kind is emitted.  The handler parses
the payload (a parse failure rejects from the catch block without
removing the handler), extracts the device from the topic segment that
follows the things segment, and on a match for the awaited device with
appId BUTTON removes the handler and resolves with data.ts. -/

/-- Worker for the JavaScript topic.split call: cut a character list at
every occurrence of the separator. -/
def jsSplitAux (sep : Char) : List Char → List Char → List String
  | [], acc => [String.mk acc.reverse]
  | c :: cs, acc =>
      if c = sep then String.mk acc.reverse :: jsSplitAux sep cs []
      else jsSplitAux sep cs (c :: acc)

/-- Embedding of the JavaScript String.split with a one-character
separator, as used by topic.split in the message handler. -/
def jsSplit (s : String) (sep : Char) : List String :=
  jsSplitAux sep s.data []

/-- The matching condition of the message handler: split the topic on
slashes, locate the things segment, read the following segment as the
device, and compare device and appId.  JavaScript indexOf yields -1 when
the segment is absent while findIdx yields the list length; under the
bounds guard thingsIndex + 1 < length the two conventions make the same
messages match. -/
def buttonMatch (thingy topic appId : String) : Bool :=
  let topicParts := jsSplit topic '/'
  let thingsIndex := topicParts.findIdx (fun part => part == "things")
  if thingsIndex + 1 < topicParts.length then
    topicParts.getD (thingsIndex + 1) "" == thingy && appId == "BUTTON"
  else false

/-- The payload of one inbound MQTT message as seen by the handler:
either JSON.parse succeeds, yielding an appId and an optional ts field,
or it throws. -/
inductive Payload where
  | malformed
  | wellFormed (appId : String) (ts : Option Int)
deriving DecidableEq

/-- The three terminal outcomes a waitClickButton promise can settle
with: the resolved ts value of a matching message, the rejection from the
JSON.parse catch block, or the rejection of the deadline timer. -/
inductive Outcome where
  | value (ts : Option Int)
  | decodeFailure
  | timeoutFailure
deriving DecidableEq

/-- The live state of one waitClickButton execution: whether the message
handler is still attached, whether the deadline timer is still pending,
whether the once continuation is still armed, and the settled state of
the promise. -/
structure WaitState where
  listenerAttached : Bool
  timerActive : Bool
  onceArmed : Bool
  settled : Option Outcome
deriving DecidableEq

/-- An external happening during the wait: an inbound message event, or
the passage of the 60 second deadline. -/
inductive WaitEvent where
  | message (topic : String) (payload : Payload)
  | deadline
deriving DecidableEq

/-- Settle-once semantics of a JavaScript promise: a resolve or reject on
an already settled promise is a no-op. -/
def promiseSettle (slot : Option Outcome) (o : Outcome) : Option Outcome :=
  match slot with
  | none => some o
  | some x => some x

/-- The message handler body.  On a parse failure it rejects without
removing itself; on a match it removes itself and resolves with data.ts;
otherwise it does nothing.  It runs only while attached. -/
def messageHandler (thingy : String) (s : WaitState) (topic : String)
    (p : Payload) : WaitState :=
  if s.listenerAttached then
    match p with
    | Payload.malformed =>
        { s with settled := promiseSettle s.settled Outcome.decodeFailure }
    | Payload.wellFormed appId ts =>
        if buttonMatch thingy topic appId then
          { s with listenerAttached := false,
                   settled := promiseSettle s.settled (Outcome.value ts) }
        else s
  else s

/-- The continuation of once(mqttClient, message): on the first message
event of any kind it clears the deadline timer. -/
def onceClearTimer (s : WaitState) : WaitState :=
  if s.onceArmed then { s with timerActive := false, onceArmed := false }
  else s

/-- One transition of the wait.  A message event runs the message handler
first (it was attached first) and then the once continuation; the
deadline event, when the timer is still pending, removes the handler and
rejects with the timeout error. -/
def stepWait (thingy : String) (s : WaitState) (e : WaitEvent) : WaitState :=
  match e with
  | WaitEvent.message topic p => onceClearTimer (messageHandler thingy s topic p)
  | WaitEvent.deadline =>
      if s.timerActive then
        { s with listenerAttached := false, timerActive := false,
                 settled := promiseSettle s.settled Outcome.timeoutFailure }
      else s

/-- The state right after the promise executor ran: handler attached,
timer started, once armed, promise pending. -/
def initWait : WaitState :=
  { listenerAttached := true, timerActive := true, onceArmed := true,
    settled := none }

/-- Embedding of waitClickButton: the state reached after the executor
has set up and the given sequence of external events has been processed
in delivery order. -/
def waitClickButton (thingy : String) (events : List WaitEvent) : WaitState :=
  events.foldl (stepWait thingy) initWait

/-! ### Rating normalizers (getSCurveRating / getLinearRating) -/

/-- Configuration of getSCurveRating: the optimal range and the two decay
slopes. -/
structure SCurveConfig where
  optimalRange : ℝ × ℝ
  slopeAboveOptimal : ℝ
  slopeBelowOptimal : ℝ

/-- Embedding of getSCurveRating over the reals (JavaScript Math.exp
becomes Real.exp): distance is the excursion beyond the nearer bound, the
slope is 0 inside the range, slopeAboveOptimal above it and
slopeBelowOptimal below it, and the logistic value 2 / (1 + exp(slope *
distance)) is scaled to a 5-star value. -/
noncomputable def getSCurveRating (value : ℝ) (config : SCurveConfig) : ℝ :=
  let distanceAbove := max 0 (value - config.optimalRange.2)
  let distanceBelow := max 0 (config.optimalRange.1 - value)
  let distance := max distanceAbove distanceBelow
  let slope :=
    if config.optimalRange.1 ≤ value ∧ value ≤ config.optimalRange.2 then 0
    else if config.optimalRange.2 < value then config.slopeAboveOptimal
    else config.slopeBelowOptimal
  let rating := 2 / (1 + Real.exp (slope * distance))
  rating * 5

/-- Configuration of getLinearRating: the optimal range and the full
range. -/
structure LinearConfig where
  optimalRange : ℚ × ℚ
  fullRange : ℚ × ℚ
deriving DecidableEq

/-- Embedding of getLinearRating over the rationals.  When the optimal
range is not contained in the full range the source constructs an
AppError but neither throws nor returns it and returns null (none here);
inside the optimal range the rating is 5; outside it decays linearly with
the excursion, clamped at 0. -/
def getLinearRating (value : ℚ) (config : LinearConfig) : Option ℚ :=
  if config.optimalRange.1 < config.fullRange.1 ∨
      config.fullRange.2 < config.optimalRange.2 then
    none
  else if config.optimalRange.1 ≤ value ∧ value ≤ config.optimalRange.2 then
    some 5
  else
    let distanceAbove := max 0 (value - config.optimalRange.2)
    let distanceBelow := max 0 (config.optimalRange.1 - value)
    let distance := max distanceAbove distanceBelow
    let fullRangeWidth := |config.fullRange.1 - config.fullRange.2|
    let optimalRangeWidth := |config.optimalRange.1 - config.optimalRange.2|
    let normalizedDistance := distance / ((fullRangeWidth - optimalRangeWidth) / 2)
    let rating := 5 - 5 * normalizedDistance
    some (max 0 rating)

/-! ### Clause counting over rendered queries

To reason about which Flux pipeline stages a rendered query contains we
count occurrences of a marker substring over the character list of the
query. -/

/-- Number of positions of s at which the pattern occurs (occurrences may
overlap). -/
def countSub (pat : List Char) : List Char → Nat
  | [] => 0
  | c :: cs => (if pat.isPrefixOf (c :: cs) then 1 else 0) + countSub pat cs

/-- The marker of a range stage in a rendered query: a line break
followed by the indented range stage opener. -/
def rangeMarker : List Char := ("\n  |> range(" : String).data

/-- The marker of the device tag filter clause inside the filter stage. -/
def deviceMarker : List Char := (" and r.device == \"" : String).data

/-- A well-behaved query argument: purely alphanumeric, as bucket names,
interval literals such as 1h, measurement names and device identifiers
are.  Such an argument cannot smuggle pipeline stage or clause markers
into the rendered query. -/
def cleanArg (s : String) : Prop := ∀ c ∈ s.data, c.isAlphanum = true

/-! ## Helper lemmas -/

/-- The getQueryRows executor over a run of row deliveries just extends
the accumulator in delivery order. -/
theorem getQueryRowsRun_map_next {α : Type} (rows : List α)
    (rest : List (QueryStreamEvent α)) (acc : List α) :
    getQueryRowsRun (rows.map QueryStreamEvent.next ++ rest) acc =
      getQueryRowsRun rest (acc ++ rows) := by
  induction rows generalizing acc with
  | nil => simp
  | cons r rows ih =>
      simp [getQueryRowsRun, ih]

/-- Positions inside a chunk whose characters all differ from the head of
the pattern contribute no occurrence, so counting may skip the chunk. -/
theorem countSub_skip (hd : Char) (pat : List Char) (a b : List Char)
    (h : ∀ c ∈ a, c ≠ hd) :
    countSub (hd :: pat) (a ++ b) = countSub (hd :: pat) b := by
  induction a with
  | nil => simp
  | cons c cs ih =>
      have hc : c ≠ hd := h c (List.mem_cons_self c cs)
      have hbeq : (hd == c) = false := beq_eq_false_iff_ne.mpr (Ne.symm hc)
      simp [countSub, List.isPrefixOf, hbeq,
        ih (fun x hx => h x (List.mem_cons_of_mem _ hx))]

/-- Occurrence counting distributes over a concatenation when no short
suffix of the left part is a prefix of the pattern, that is, when no
occurrence can straddle the boundary. -/
theorem countSub_append (pat a b : List Char)
    (h : ∀ i, i < a.length → a.length - i < pat.length →
      (a.drop i).isPrefixOf pat = false) :
    countSub pat (a ++ b) = countSub pat a + countSub pat b := by
  induction a with
  | nil => simp [countSub]
  | cons c cs ih =>
      have hstep : pat.isPrefixOf ((c :: cs) ++ b) = pat.isPrefixOf (c :: cs) := by
        rcases le_or_lt pat.length (c :: cs).length with hle | hlt
        · by_cases hp : pat.isPrefixOf (c :: cs)
          · have hpre := List.isPrefixOf_iff_prefix.mp hp
            have hext : pat <+: (c :: cs) ++ b :=
              hpre.trans (List.prefix_append _ _)
            rw [hp, List.isPrefixOf_iff_prefix.mpr hext]
          · have hnp : ¬ pat <+: (c :: cs) := fun hx =>
              hp (List.isPrefixOf_iff_prefix.mpr hx)
            have hnx : ¬ pat <+: (c :: cs) ++ b := by
              intro hx
              apply hnp
              rw [List.prefix_iff_eq_take] at hx ⊢
              rwa [List.take_append_of_le_length hle] at hx
            have e1 : pat.isPrefixOf (c :: cs) = false := by
              rw [← Bool.not_eq_true, List.isPrefixOf_iff_prefix]
              exact hnp
            have e2 : pat.isPrefixOf ((c :: cs) ++ b) = false := by
              rw [← Bool.not_eq_true, List.isPrefixOf_iff_prefix]
              exact hnx
            rw [e1, e2]
        · have h0 := h 0 (Nat.succ_pos _) (by rw [Nat.sub_zero]; exact hlt)
          have hn : pat.isPrefixOf (c :: cs) = false := by
            rw [← Bool.not_eq_true, List.isPrefixOf_iff_prefix]
            intro hx
            exact absurd hx.length_le (not_le.mpr hlt)
          have hnx : pat.isPrefixOf ((c :: cs) ++ b) = false := by
            rw [← Bool.not_eq_true, List.isPrefixOf_iff_prefix]
            intro hx
            have hsub : (c :: cs) <+: pat := by
              rw [List.prefix_iff_eq_take]
              have hx2 := List.prefix_iff_eq_take.mp hx
              rw [hx2, List.take_take, min_eq_left (le_of_lt hlt),
                List.take_append_of_le_length le_rfl, List.take_length]
            have hcontra := List.isPrefixOf_iff_prefix.mpr hsub
            simp [List.drop_zero] at h0
            rw [h0] at hcontra
            exact Bool.false_ne_true hcontra
          rw [hn, hnx]
      rw [List.cons_append] at hstep
      have h' : ∀ i, i < cs.length → cs.length - i < pat.length →
          (cs.drop i).isPrefixOf pat = false := by
        intro i hi hlen
        have := h (i + 1) (by simpa using Nat.succ_lt_succ hi)
          (by simpa using hlen)
        simpa using this
      simp only [List.cons_append, List.append_eq, countSub, hstep, ih h']
      omega

/-- A clean argument contains no occurrence of a character that is not
alphanumeric. -/
theorem cleanArg_ne (s : String) (h : cleanArg s) (hd : Char)
    (hhd : hd.isAlphanum = false) : ∀ c ∈ s.data, c ≠ hd := by
  intro c hc he
  rw [he] at hc
  rw [h hd hc] at hhd
  exact Bool.noConfusion hhd

/-- The character list of a rendered basic query, decomposed into its six
literal segments and the five interpolated arguments. -/
theorem basicQueryData (bucket interval measurement deviceId field : String) :
    (constructBasicPropertyQuery bucket interval measurement deviceId
        field).data =
      ("from(bucket: \"" : String).data ++ (bucket.data ++
        (("\")\n  |> range(start: -" : String).data ++ (interval.data ++
          ((")\n  |> filter(fn: (r) => r._measurement == \"" : String).data ++
            (measurement.data ++
              (("\" and r._field == \"" : String).data ++ (field.data ++
                (("\" and r.device == \"" : String).data ++ (deviceId.data ++
                  ("\")" : String).data))))))))) := by
  simp only [constructBasicPropertyQuery, String.data_append, List.append_assoc]

/-- With clean arguments the rendered basic query contains exactly one
range stage: the one of the template. -/
theorem basicQueryRangeCount (bucket interval measurement deviceId field :
    String) (hb : cleanArg bucket) (hi : cleanArg interval)
    (hm : cleanArg measurement) (hd : cleanArg deviceId)
    (hf : cleanArg field) :
    countSub rangeMarker (constructBasicPropertyQuery bucket interval
      measurement deviceId field).data = 1 := by
  have hM : rangeMarker = '\n' :: ("  |> range(" : String).data := rfl
  rw [hM, basicQueryData,
    countSub_append _ _ _ (by decide),
    countSub_skip _ _ _ _ (cleanArg_ne bucket hb '\n' (by decide)),
    countSub_append _ _ _ (by decide),
    countSub_skip _ _ _ _ (cleanArg_ne interval hi '\n' (by decide)),
    countSub_append _ _ _ (by decide),
    countSub_skip _ _ _ _ (cleanArg_ne measurement hm '\n' (by decide)),
    countSub_append _ _ _ (by decide),
    countSub_skip _ _ _ _ (cleanArg_ne field hf '\n' (by decide)),
    countSub_append _ _ _ (by decide),
    countSub_skip _ _ _ _ (cleanArg_ne deviceId hd '\n' (by decide))]
  decide

/-- With clean arguments the rendered basic query contains exactly one
device tag filter clause: the one of the template, whatever the deviceId
argument is. -/
theorem basicQueryDeviceCount (bucket interval measurement deviceId field :
    String) (hb : cleanArg bucket) (hi : cleanArg interval)
    (hm : cleanArg measurement) (hd : cleanArg deviceId)
    (hf : cleanArg field) :
    countSub deviceMarker (constructBasicPropertyQuery bucket interval
      measurement deviceId field).data = 1 := by
  have hM : deviceMarker = ' ' :: ("and r.device == \"" : String).data := rfl
  rw [hM, basicQueryData,
    countSub_append _ _ _ (by decide),
    countSub_skip _ _ _ _ (cleanArg_ne bucket hb ' ' (by decide)),
    countSub_append _ _ _ (by decide),
    countSub_skip _ _ _ _ (cleanArg_ne interval hi ' ' (by decide)),
    countSub_append _ _ _ (by decide),
    countSub_skip _ _ _ _ (cleanArg_ne measurement hm ' ' (by decide)),
    countSub_append _ _ _ (by decide),
    countSub_skip _ _ _ _ (cleanArg_ne field hf ' ' (by decide)),
    countSub_append _ _ _ (by decide),
    countSub_skip _ _ _ _ (cleanArg_ne deviceId hd ' ' (by decide))]
  decide

/-- The once continuation never changes the settled slot. -/
theorem onceClearTimer_settled (s : WaitState) :
    (onceClearTimer s).settled = s.settled := by
  simp only [onceClearTimer]
  split <;> rfl

/-- The once continuation never changes the listener attachment. -/
theorem onceClearTimer_listener (s : WaitState) :
    (onceClearTimer s).listenerAttached = s.listenerAttached := by
  simp only [onceClearTimer]
  split <;> rfl

/-- Settling a promise that is already settled is a no-op. -/
theorem promiseSettle_some (o o2 : Outcome) :
    promiseSettle (some o) o2 = some o := rfl

/-- The message handler never overwrites a settled slot. -/
theorem messageHandler_settled_of_settled (thingy topic : String)
    (p : Payload) (s : WaitState) (o : Outcome) (h : s.settled = some o) :
    (messageHandler thingy s topic p).settled = some o := by
  cases p with
  | malformed =>
      by_cases hl : s.listenerAttached <;>
        simp [messageHandler, hl, promiseSettle, h]
  | wellFormed appId ts =>
      by_cases hl : s.listenerAttached
      · by_cases hm : buttonMatch thingy topic appId <;>
          simp [messageHandler, hl, hm, promiseSettle, h]
      · simp [messageHandler, hl, h]

/-! ## Claim theorems -/

/-- Claim C3, counterexample to the original statement.  A telemetry
message that carries its own timestamp field ts = 123 is encoded, at
observation instant 456, into a point stamped 456: the point does not use
the timestamp of the message, refuting the claimed precedence of the
message timestamp. -/
theorem encoderIgnoresMessageTs :
    ¬ ((addFloatProperty "d1" ⟨"TEMP", "22", some 123⟩ 456).map
        Point.timestamp = [123]) := by
  decide

/-- Claim C3 (amended): the point written by addFloatProperty or
addIntegerProperty is always stamped with the observation instant of the
encoder (the new Date().getTime() reading); a timestamp carried by the
message is never read. -/
theorem encoderTimestampAlwaysObservation (deviceId : String)
    (message : MqttMessage) (now : Int) :
    (addFloatProperty deviceId message now).map Point.timestamp = [now] ∧
    (addIntegerProperty deviceId message now).all
      (fun p => p.timestamp == now) = true := by
  constructor
  · simp [addFloatProperty]
  · by_cases h : message.data == "1" <;> simp [addIntegerProperty, h]

/-- Claim C5: addIntegerProperty on an edge-triggered boolean channel
writes no point when the message data is the string 0 and exactly one
point when it is the string 1. -/
theorem integerEncoderEdgeTriggered (deviceId appId : String)
    (ts : Option Int) (now : Int) :
    addIntegerProperty deviceId ⟨appId, "0", ts⟩ now = [] ∧
    (addIntegerProperty deviceId ⟨appId, "1", ts⟩ now).length = 1 := by
  constructor
  · simp [addIntegerProperty]
  · simp [addIntegerProperty]

/-- Claim C8: if the error callback fires before stream completion the
getQueryRows promise rejects as a whole with the single terminal failure
message and no list of rows, even though rows were already collected
internally; if the completion callback fires first the promise resolves
with all collected rows in delivery order. -/
theorem getQueryRowsErrorRejectsWhole {α : Type} (rows : List α) (e : String)
    (rest : List (QueryStreamEvent α)) :
    getQueryRows (rows.map QueryStreamEvent.next ++
        QueryStreamEvent.errorEvent e :: rest) =
      some (QuerySettlement.rejectedWith
        ("An error occurred while fetching data: " ++ e)) ∧
    (∀ (rows2 : List α) (rest2 : List (QueryStreamEvent α)),
      getQueryRows (rows2.map QueryStreamEvent.next ++
          QueryStreamEvent.complete :: rest2) =
        some (QuerySettlement.resolvedRows rows2)) := by
  constructor
  · simp [getQueryRows, getQueryRowsRun_map_next, getQueryRowsRun]
  · intro rows2 rest2
    simp [getQueryRows, getQueryRowsRun_map_next, getQueryRowsRun]

/-- Claim C10: for identical arguments the statistical query is the basic
query with exactly the grouping stage on the field column and the
reduction stage named by the statistic appended, so the basic query is a
prefix of the statistical query. -/
theorem statisticalQueryExtendsBasic
    (bucket interval measurement deviceId field statistic : String) :
    constructStatisticalQueryOnProperty bucket interval measurement deviceId
        field statistic =
      constructBasicPropertyQuery bucket interval measurement deviceId field ++
        ("\n  |> group(columns: [\"_field\"])\n  |> " ++ statistic ++ "()") ∧
    (constructBasicPropertyQuery bucket interval measurement deviceId
        field).data <+:
      (constructStatisticalQueryOnProperty bucket interval measurement deviceId
        field statistic).data := by
  have h : constructStatisticalQueryOnProperty bucket interval measurement
      deviceId field statistic =
      constructBasicPropertyQuery bucket interval measurement deviceId field ++
        ("\n  |> group(columns: [\"_field\"])\n  |> " ++ statistic ++ "()") := by
    have hlit : ("\")\n  |> group(columns: [\"_field\"])\n  |> " : String) =
        "\")" ++ "\n  |> group(columns: [\"_field\"])\n  |> " := rfl
    simp only [constructStatisticalQueryOnProperty,
      constructBasicPropertyQuery, hlit, String.append_assoc]
  refine ⟨h, ?_⟩
  rw [h, String.data_append]
  exact List.prefix_append _ _

/-- Claim C1, counterexample to the original statement.  A malformed
message for the awaited device settles the wait on the decode-error path,
yet the message listener is still attached afterwards: the catch block of
the handler rejects without calling off, so the decode-error path does
not deregister the subscription. -/
theorem waitDecodeFailureLeavesListener :
    (waitClickButton "d1"
        [WaitEvent.message "things/d1/shadow/update" Payload.malformed]).settled
        = some Outcome.decodeFailure ∧
    (waitClickButton "d1"
        [WaitEvent.message "things/d1/shadow/update" Payload.malformed]
        ).listenerAttached = true := by
  decide

/-- Claim C1 (amended): over any single transition of the wait, the
promise settles at most once (a settled slot is never overwritten), and
on the match and timeout resolution paths the listener is deregistered at
the moment of resolution; on the decode-error path the promise settles
but the listener remains attached. -/
theorem waitSettleOnceAndCleanup (thingy : String) (s : WaitState)
    (e : WaitEvent) :
    (∀ o, s.settled = some o → (stepWait thingy s e).settled = some o) ∧
    (s.settled = none →
      ∀ o, (stepWait thingy s e).settled = some o →
        (o = Outcome.timeoutFailure ∨ ∃ ts, o = Outcome.value ts) →
        (stepWait thingy s e).listenerAttached = false) ∧
    (s.listenerAttached = true → s.settled = none →
      ∀ topic,
        (stepWait thingy s (WaitEvent.message topic Payload.malformed)).settled
            = some Outcome.decodeFailure ∧
        (stepWait thingy s (WaitEvent.message topic Payload.malformed)
            ).listenerAttached = true) := by
  refine ⟨?_, ?_, ?_⟩
  · intro o ho
    cases e with
    | message topic p =>
        simp only [stepWait, onceClearTimer_settled]
        exact messageHandler_settled_of_settled thingy topic p s o ho
    | deadline =>
        by_cases ht : s.timerActive
        · simp [stepWait, ht, promiseSettle, ho]
        · simp [stepWait, ht, ho]
  · intro hnone o hstep hor
    cases e with
    | message topic p =>
        cases p with
        | malformed =>
            by_cases hl : s.listenerAttached
            · simp only [stepWait, onceClearTimer_settled, messageHandler, hl,
                if_true, hnone, promiseSettle] at hstep
              rcases hor with h1 | ⟨ts, h2⟩
              · rw [h1] at hstep
                exact absurd hstep.symm (by simp)
              · rw [h2] at hstep
                exact absurd hstep.symm (by simp)
            · simp [stepWait, onceClearTimer_settled, messageHandler, hl,
                hnone] at hstep
        | wellFormed appId ts =>
            by_cases hl : s.listenerAttached
            · by_cases hm : buttonMatch thingy topic appId
              · simp [stepWait, onceClearTimer_listener, messageHandler, hl, hm]
              · simp [stepWait, onceClearTimer_settled, messageHandler, hl, hm,
                  hnone] at hstep
            · simp [stepWait, onceClearTimer_settled, messageHandler, hl,
                hnone] at hstep
    | deadline =>
        by_cases ht : s.timerActive
        · simp [stepWait, ht]
        · simp [stepWait, ht, hnone] at hstep
  · intro hl hnone topic
    constructor
    · simp [stepWait, onceClearTimer_settled, messageHandler, hl, hnone,
        promiseSettle]
    · simp [stepWait, onceClearTimer_listener, messageHandler, hl, hnone,
        promiseSettle]

/-- Witness for the amended claim C1 at concrete inputs: an already
settled wait stays settled with the same outcome across a further
transition, and the timeout transition from the initial state detaches
the listener. -/
theorem waitSettleOnceAndCleanup_witness :
    (stepWait "d1" ⟨false, false, false, some Outcome.decodeFailure⟩
        WaitEvent.deadline).settled = some Outcome.decodeFailure ∧
    (stepWait "d1" initWait WaitEvent.deadline).listenerAttached = false := by
  constructor
  · exact (waitSettleOnceAndCleanup "d1"
      ⟨false, false, false, some Outcome.decodeFailure⟩ WaitEvent.deadline).1
      Outcome.decodeFailure rfl
  · exact (waitSettleOnceAndCleanup "d1" initWait WaitEvent.deadline).2.1 rfl
      Outcome.timeoutFailure (by decide) (Or.inl rfl)

/-- Claim C2: the code contradicts the claimed timeout guarantee.  The
once continuation clears the 60 second timer on the first message event
of any kind, so after a single non-matching message (here for another
device, with a non-button appId) the deadline passage no longer rejects
and the wait remains pending forever instead of resolving with the
timeout error. -/
theorem waitHangsAfterNonMatchingMessage :
    (waitClickButton "dev1"
        [WaitEvent.message "things/dev2/shadow/update"
            (Payload.wellFormed "TEMP" (some 5)),
          WaitEvent.deadline]).settled = none ∧
    (waitClickButton "dev1"
        [WaitEvent.message "things/dev2/shadow/update"
            (Payload.wellFormed "TEMP" (some 5)),
          WaitEvent.deadline]).timerActive = false := by
  decide

/-- Claim C6: while the wait is pending with its listener attached, a
malformed inbound message settles it immediately with the decode-error
outcome (the waiter is not left hanging), and a well-formed message that
matches the awaited device with appId BUTTON settles it with the ts value
of the decoded message. -/
theorem waitPendingMessageResolution (thingy topic appId : String)
    (ts : Option Int) (s : WaitState) (hl : s.listenerAttached = true)
    (hnone : s.settled = none) :
    (stepWait thingy s (WaitEvent.message topic Payload.malformed)).settled =
        some Outcome.decodeFailure ∧
    (buttonMatch thingy topic appId = true →
      (stepWait thingy s (WaitEvent.message topic
          (Payload.wellFormed appId ts))).settled = some (Outcome.value ts)) := by
  constructor
  · simp [stepWait, onceClearTimer_settled, messageHandler, hl, hnone,
      promiseSettle]
  · intro hm
    simp [stepWait, onceClearTimer_settled, messageHandler, hl, hm, hnone,
      promiseSettle]

/-- Witness for claim C6 at concrete inputs: from the initial state, a
malformed message settles the wait with the decode-error outcome, and a
button message for the awaited device settles it with the carried ts. -/
theorem waitPendingMessageResolution_witness :
    (stepWait "d1" initWait
        (WaitEvent.message "things/d1/shadow/update" Payload.malformed)
        ).settled = some Outcome.decodeFailure ∧
    (stepWait "d1" initWait
        (WaitEvent.message "things/d1/shadow/update"
          (Payload.wellFormed "BUTTON" (some 7)))).settled =
      some (Outcome.value (some 7)) := by
  constructor
  · exact (waitPendingMessageResolution "d1" "things/d1/shadow/update"
      "BUTTON" (some 7) initWait rfl rfl).1
  · exact (waitPendingMessageResolution "d1" "things/d1/shadow/update"
      "BUTTON" (some 7) initWait rfl rfl).2 (by decide)

/-- Claim C7: when the optimal range is not contained in the full range,
getLinearRating returns null (none) synchronously: it neither crashes nor
returns a numeric score.  Note that the AppError the source constructs on
this path is discarded, so no error object reaches the caller. -/
theorem linearRatingInvalidRangeReturnsNull (value : ℚ) (config : LinearConfig)
    (h : config.optimalRange.1 < config.fullRange.1 ∨
      config.fullRange.2 < config.optimalRange.2) :
    getLinearRating value config = none := by
  unfold getLinearRating
  rw [if_pos h]

/-- Witness for claim C7 at the concrete failing input: value 10 with
optimal range [20, 25] and full range [21, 30]. -/
theorem linearRatingInvalidRange_witness :
    getLinearRating 10 ⟨(20, 25), (21, 30)⟩ = none :=
  linearRatingInvalidRangeReturnsNull 10 ⟨(20, 25), (21, 30)⟩
    (Or.inl (by norm_num))

/-- Every value strictly above the upper optimal bound renders the
S-curve rating as the logistic decay in the excursion above that bound. -/
theorem getSCurveRating_above (config : SCurveConfig)
    (hlohi : config.optimalRange.1 ≤ config.optimalRange.2) (v : ℝ)
    (hv : config.optimalRange.2 < v) :
    getSCurveRating v config =
      2 / (1 + Real.exp (config.slopeAboveOptimal *
        (v - config.optimalRange.2))) * 5 := by
  have h1 : max 0 (v - config.optimalRange.2) = v - config.optimalRange.2 :=
    max_eq_right (by linarith)
  have h2 : max 0 (config.optimalRange.1 - v) = 0 :=
    max_eq_left (by linarith)
  simp only [getSCurveRating, h1, h2]
  rw [if_neg (fun hc => absurd hc.2 (not_le.mpr hv)), if_pos hv,
    max_eq_left (by linarith : (0:ℝ) ≤ v - config.optimalRange.2)]

/-- Claim C9: the S-curve rating is exactly 5 for every value inside the
optimal range, and for a positive slopeAboveOptimal it strictly decreases
as the value climbs further above the upper bound. -/
theorem sCurveRatingInRangeAndDecay (config : SCurveConfig) :
    (∀ value : ℝ, config.optimalRange.1 ≤ value →
      value ≤ config.optimalRange.2 → getSCurveRating value config = 5) ∧
    (0 < config.slopeAboveOptimal →
      config.optimalRange.1 ≤ config.optimalRange.2 →
      ∀ v1 v2 : ℝ, config.optimalRange.2 < v1 → v1 < v2 →
        getSCurveRating v2 config < getSCurveRating v1 config) := by
  constructor
  · intro value h1 h2
    simp only [getSCurveRating]
    rw [if_pos ⟨h1, h2⟩]
    norm_num
  · intro hs hlohi v1 v2 hv1 hv12
    rw [getSCurveRating_above config hlohi v1 hv1,
      getSCurveRating_above config hlohi v2 (lt_trans hv1 hv12)]
    have hexp : Real.exp (config.slopeAboveOptimal *
        (v1 - config.optimalRange.2)) < Real.exp (config.slopeAboveOptimal *
        (v2 - config.optimalRange.2)) :=
      Real.exp_lt_exp.mpr (mul_lt_mul_of_pos_left (by linarith) hs)
    have hd1 : (0:ℝ) < 1 + Real.exp (config.slopeAboveOptimal *
        (v1 - config.optimalRange.2)) := by positivity
    have hlt : 1 + Real.exp (config.slopeAboveOptimal *
        (v1 - config.optimalRange.2)) < 1 + Real.exp (config.slopeAboveOptimal *
        (v2 - config.optimalRange.2)) := by linarith
    have hdiv := div_lt_div_of_pos_left (by norm_num : (0:ℝ) < 2) hd1 hlt
    exact mul_lt_mul_of_pos_right hdiv (by norm_num)

/-- Witness for claim C9 at the concrete inputs of the specification:
optimal range [20, 25] with slopeAboveOptimal one half; the value 22
rates exactly 5, and the rating at 31 is strictly below the rating at
30. -/
theorem sCurveRating_witness :
    getSCurveRating 22 ⟨(20, 25), 1 / 2, 1⟩ = 5 ∧
    getSCurveRating 31 ⟨(20, 25), 1 / 2, 1⟩ <
      getSCurveRating 30 ⟨(20, 25), 1 / 2, 1⟩ := by
  constructor
  · exact (sCurveRatingInRangeAndDecay ⟨(20, 25), 1 / 2, 1⟩).1 22
      (by norm_num) (by norm_num)
  · exact (sCurveRatingInRangeAndDecay ⟨(20, 25), 1 / 2, 1⟩).2
      (by norm_num) (by norm_num) 30 31 (by norm_num) (by norm_num)

set_option maxRecDepth 4000 in
/-- Claim C4, counterexample to the original statement.  When no deviceId
is set, the call renders the undefined argument as the text undefined and
the device tag filter clause is still present in the output (one
occurrence, not zero), so the device filter is not omitted for an unset
deviceId. -/
theorem basicQueryDeviceFilterNotOmitted :
    ¬ (countSub deviceMarker (constructBasicPropertyQuery "b" "1h" "thingy91"
      (renderOptionalJsArg none) "TEMP").data = 0) := by
  decide

/-- Claim C4 (amended): for every query specification with clean
(alphanumeric) arguments, the rendered basic query contains exactly one
range clause and exactly one device tag filter clause; the device filter
is always present, whether or not a deviceId was set. -/
theorem basicQueryClauseCounts (bucket interval measurement deviceId field :
    String) (hb : cleanArg bucket) (hi : cleanArg interval)
    (hm : cleanArg measurement) (hd : cleanArg deviceId)
    (hf : cleanArg field) :
    countSub rangeMarker (constructBasicPropertyQuery bucket interval
      measurement deviceId field).data = 1 ∧
    countSub deviceMarker (constructBasicPropertyQuery bucket interval
      measurement deviceId field).data = 1 :=
  ⟨basicQueryRangeCount bucket interval measurement deviceId field hb hi hm
      hd hf,
    basicQueryDeviceCount bucket interval measurement deviceId field hb hi hm
      hd hf⟩

/-- Witness for the amended claim C4 at concrete clean arguments. -/
theorem basicQueryClauseCounts_witness :
    countSub rangeMarker (constructBasicPropertyQuery "mybucket" "1h"
      "thingy91" "dev1" "TEMP").data = 1 ∧
    countSub deviceMarker (constructBasicPropertyQuery "mybucket" "1h"
      "thingy91" "dev1" "TEMP").data = 1 :=
  basicQueryClauseCounts "mybucket" "1h" "thingy91" "dev1" "TEMP"
    (by unfold cleanArg; decide) (by unfold cleanArg; decide)
    (by unfold cleanArg; decide) (by unfold cleanArg; decide)
    (by unfold cleanArg; decide)

end ThingyApi
